/-
Verification of the event-ticketing backend (shababco-api).

Shallow embedding of the derived-state reconciliation, lifecycle,
caching and webhook-intake logic of the backend, with theorems checking
the natural-language specification against the embedded code.

Sources embedded (file ⇒ Lean definitions):
  backend/app/integrations/shopify/variants.py
    list_variants        ⇒ foldVariant, list_variants
    _parse_variant_metafields ⇒ parse_metafield_value, parse_variant_metafields
  backend/app/api/routes/events.py
    update_event (status-transition slice) ⇒ update_event_status
    delete_event ⇒ delete_event
    get_events (fetch loop, sort, paginate) ⇒ fetch_pages_loop, sort_events, get_events_page
    get_popular_events (fetch loop) ⇒ fetch_pages_loop
  backend/app/api/routes/tickets.py
    update_ticket (field-locking slice) ⇒ update_ticket
  backend/app/core/cache.py
    cache_delete / invalidate_event_caches / invalidate_ticket_caches
      ⇒ cache_delete, invalidate_event_caches_all, invalidate_event_caches_id,
        invalidate_ticket_caches_event, and per-route cache effects
  backend/app/api/routes/webhooks.py
    order_created_webhook ⇒ order_created_webhook

Machine integers are modelled as Int (Python ints are unbounded), prices
as Rat (Python floats enter only linearly, `revenue = sold * price` is
the literal product the code computes).
-/
import Mathlib

/-! ## Inventory reconciliation (list_variants fold) -/

/-- A raw Shopify variant as consumed by `list_variants` after its
metafields have been parsed: `inventoryQuantity` is the live available
quantity reported by Shopify, `mfInventoryQuantity` the parsed
`inventory_quantity` metafield (declared capacity) when present,
`mfIsVisible` the parsed `is_visible` metafield when present. -/
structure RawVariant where
  legacyResourceId : String
  title : String
  price : Rat
  inventoryQuantity : Int
  mfInventoryQuantity : Option Int
  mfIsVisible : Option Bool
  mfTicketType : Option String
deriving DecidableEq, Repr

/-- The per-variant record produced by `list_variants`. -/
structure VariantData where
  shopify_variant_id : String
  ticket_name : String
  ticket_type : String
  price : Rat
  capacity : Int
  sold : Int
  revenue : Rat
  available : Int
  status : String
deriving DecidableEq, Repr

/-- The body of the `for edge in ...` loop of `list_variants`
(variants.py lines 697–745): derives capacity, sold, status and revenue
for one variant. `.getD 0` and `.getD true` embed
`parsed_metafields.get("inventory_quantity", 0)` and
`parsed_metafields.get("is_visible", True)`. -/
def foldVariant (v : RawVariant) : VariantData :=
  let available := v.inventoryQuantity
  let metafield_capacity := v.mfInventoryQuantity.getD 0
  let capacity := if metafield_capacity > 0 then metafield_capacity else available
  let sold := max 0 (capacity - available)
  let is_visible := v.mfIsVisible.getD true
  let status :=
    if is_visible = false then "hidden"
    else if available = 0 then "sold_out"
    else "active"
  let price := v.price
  let revenue := (sold : Rat) * price
  { shopify_variant_id := v.legacyResourceId
    ticket_name := v.title
    ticket_type := v.mfTicketType.getD "regular"
    price := price
    capacity := capacity
    sold := sold
    revenue := revenue
    available := available
    status := status }

/-- `list_variants` (variants.py): folds every variant of the product. -/
def list_variants (vs : List RawVariant) : List VariantData :=
  vs.map foldVariant

/-- The reconciliation computation as WORDED BY THE SPEC (§4.3), for
comparison with the code-derived `foldVariant`:
capacity, sold, status, revenue as the four spec formulas. -/
def reconcileSpec (declaredCapacityField liveAvailable : Int) (visible : Bool)
    (price : Rat) : Int × Int × String × Rat :=
  let capacity := if declaredCapacityField > 0 then declaredCapacityField else liveAvailable
  let sold := max 0 (capacity - liveAvailable)
  let status :=
    if ¬ visible then "hidden"
    else if liveAvailable = 0 then "sold_out"
    else "active"
  (capacity, sold, status, (sold : Rat) * price)

/-! ## Event lifecycle (update_event status-transition slice) -/

/-- Outcome of the status-transition validation of `update_event`
(events.py lines 494–552): either rejected with the HTTP 400 detail
string, or the update proceeds. -/
inductive UpdateEventResult where
  | rejected (detail : String)
  | updated
deriving DecidableEq, Repr

/-- The `forbidden_transitions` dict of `update_event`: looks up the
(current, new) status pair and returns the rejection detail when the
transition is forbidden. -/
def forbidden_transition_detail (current_status new_status : String) : Option String :=
  if current_status = "active" ∧ new_status = "draft" then
    some "Cannot unpublish active event. Use archive instead."
  else if current_status = "archived" ∧ new_status = "draft" then
    some "Cannot change archived event to draft. Use publish endpoint to make it active."
  else if current_status = "draft" ∧ new_status = "archived" then
    some "Cannot archive draft event. Publish it first."
  else none

/-- The status-transition slice of `update_event`: reject forbidden
pairs; when changing to active from a non-active status, require at
least one ticket and at least one ticket with available inventory;
otherwise the update proceeds. `variants` is the `list_variants`
result for the event. -/
def update_event_status (current_status new_status : String)
    (variants : List VariantData) : UpdateEventResult :=
  match forbidden_transition_detail current_status new_status with
  | some detail => .rejected detail
  | none =>
    if new_status = "active" ∧ current_status ≠ "active" then
      if variants.length = 0 then
        .rejected "Cannot publish event: Event must have at least one ticket"
      else if variants.any (fun v => v.available > 0) then
        .updated
      else
        .rejected "Cannot publish event: At least one ticket must have available inventory"
    else .updated

/-- The three event statuses of the lifecycle table. -/
inductive EventStatus where
  | draft
  | active
  | archived
deriving DecidableEq, Repr

/-- Status as the lowercase string the route compares. -/
def EventStatus.toStr : EventStatus → String
  | .draft => "draft"
  | .active => "active"
  | .archived => "archived"

/-! ## Ticket field-locking (update_ticket) -/

/-- Partial ticket update payload (schemas/ticket_update.py): all fields
optional; a `some` field is one present after
`model_dump(exclude_none=True)`. -/
structure TicketUpdate where
  ticket_name : Option String
  ticket_type : Option String
  description : Option String
  features : Option (List String)
  is_visible : Option Bool
  price : Option Rat
  compare_at_price : Option Rat
  inventory_quantity : Option Int
  max_per_order : Option Int
deriving DecidableEq, Repr

/-- Outcome of `update_ticket` (tickets.py lines 165–251).
`rejectedLocked` carries the data of the HTTP 400 detail
"Cannot edit (display name) after sales. This ticket has
(sold count) confirmed buyers."; `rejectedInventory` the data of
"Cannot set inventory below sold count. Sold: .., Attempted: ..". -/
inductive UpdateTicketResult where
  | rejectedLocked (display_name : String) (sold_count : Int)
  | rejectedInventory (sold_count attempted : Int)
  | updated (payload : TicketUpdate)
deriving DecidableEq, Repr

/-- The field-locking slice of `update_ticket`: when the ticket has
sales, the locked fields are rejected in the order of the
`locked_fields` dict, then an inventory decrease below the sold count
is rejected; otherwise the variant update proceeds. `sold_count` is the
value the route reads from the freshly fetched variant. -/
def update_ticket (sold_count : Int) (u : TicketUpdate) : UpdateTicketResult :=
  let has_sales := sold_count > 0
  if has_sales then
    if u.ticket_name.isSome then .rejectedLocked "Ticket name" sold_count
    else if u.ticket_type.isSome then .rejectedLocked "Ticket type" sold_count
    else if u.description.isSome then .rejectedLocked "Description" sold_count
    else if u.features.isSome then .rejectedLocked "Features" sold_count
    else if u.compare_at_price.isSome then .rejectedLocked "Compare-at price" sold_count
    else if u.max_per_order.isSome then .rejectedLocked "Max per order" sold_count
    else
      match u.inventory_quantity with
      | some new_inventory =>
        if new_inventory < sold_count then .rejectedInventory sold_count new_inventory
        else .updated u
      | none => .updated u
  else .updated u

/-- True when the payload touches any of the six fields that become
immutable once the ticket has sales. -/
def TicketUpdate.hasLockedField (u : TicketUpdate) : Bool :=
  u.ticket_name.isSome || u.ticket_type.isSome || u.description.isSome ||
    u.features.isSome || u.compare_at_price.isSome || u.max_per_order.isSome

/-! ## Read-through cache and invalidation (core/cache.py) -/

/-- The cache key families written by the routes (cache.py
CACHE_PATTERNS and the key strings built in events.py / tickets.py):
eventFull is events:full:.., eventList is events:list:.. (one
parameter string per page/filter combination; get_events also uses this
family for its events:list:page=.. keys), eventsPopular is
events:popular:limit=.., eventTickets is tickets:event:.. . -/
inductive CacheKey where
  | eventFull (event_id : String)
  | eventList (params : String)
  | eventsPopular (limit : Nat)
  | eventTickets (event_id : String)
deriving DecidableEq, Repr

/-- The set of keys currently present in the backing store (TTL and
values elided: the claim is about which keys each mutation removes). -/
abbrev CacheState := List CacheKey

/-- The redis pattern events:* — every key whose string form starts
with "events:". -/
def matchesEventsStar : CacheKey → Bool
  | .eventFull _ => true
  | .eventList _ => true
  | .eventsPopular _ => true
  | .eventTickets _ => false

/-- The redis pattern tickets:* . -/
def matchesTicketsStar : CacheKey → Bool
  | .eventTickets _ => true
  | _ => false

/-- cache_delete(pattern): removes every key matching the pattern. -/
def cache_delete (pat : CacheKey → Bool) (s : CacheState) : CacheState :=
  s.filter (fun k => ¬ pat k)

/-- invalidate_event_caches() with no event id: deletes events:* then
tickets:* . -/
def invalidate_event_caches_all (s : CacheState) : CacheState :=
  cache_delete matchesTicketsStar (cache_delete matchesEventsStar s)

/-- invalidate_event_caches(event_id): deletes exactly the two keys
events:full:(id) and tickets:event:(id). -/
def invalidate_event_caches_id (event_id : String) (s : CacheState) : CacheState :=
  cache_delete (fun k => k = .eventTickets event_id)
    (cache_delete (fun k => k = .eventFull event_id) s)

/-- invalidate_ticket_caches(event_id=..): deletes tickets:event:(id)
then events:full:(id). -/
def invalidate_ticket_caches_event (event_id : String) (s : CacheState) : CacheState :=
  cache_delete (fun k => k = .eventFull event_id)
    (cache_delete (fun k => k = .eventTickets event_id) s)

/-- Cache effect on the success path of every event-level mutation:
create_event, update_event, publish_event, toggle_featured and
delete_event each call invalidate_event_caches() with no argument
before returning. -/
def event_mutation_cache_effect (s : CacheState) : CacheState :=
  invalidate_event_caches_all s

/-- create_ticket (tickets.py lines 20–80) performs no cache
invalidation before returning 201. -/
def create_ticket_cache_effect (product_id : String) (s : CacheState) : CacheState :=
  let _ := product_id
  s

/-- delete_ticket performs no cache invalidation before returning 204. -/
def delete_ticket_cache_effect (product_id : String) (s : CacheState) : CacheState :=
  let _ := product_id
  s

/-- update_ticket calls invalidate_event_caches(product_id) then
invalidate_ticket_caches(event_id=product_id) before returning. -/
def update_ticket_cache_effect (product_id : String) (s : CacheState) : CacheState :=
  invalidate_ticket_caches_event product_id (invalidate_event_caches_id product_id s)

/-! ## Event deletion (delete_event) -/

/-- Outcome of `delete_event` (events.py lines 405–465): `rejected`
carries the summed sold count of the HTTP 400 detail "Cannot delete
event with .. sold tickets. Please archive the event instead or contact
support.", raised before any delete is issued to Shopify; `deleted`
means delete_product was issued and the route returns 204. -/
inductive DeleteEventResult where
  | rejected (total_sold : Int)
  | deleted
deriving DecidableEq, Repr

/-- The summed sold count over the event's tickets, as computed by
`delete_event`. -/
def total_sold (variants : List VariantData) : Int :=
  (variants.map (fun v => v.sold)).sum

/-- `delete_event`: when the ticket listing succeeds, refuse if the
summed sold count is positive; when the ticket listing raises an
unexpected error, the route logs a warning and CONTINUES with the
deletion ("Continue with deletion if we can't fetch tickets").
`variants` is the event's actual ticket list, `fetch_ok` whether
`list_variants` succeeded in returning it. -/
def delete_event (variants : List VariantData) (fetch_ok : Bool) : DeleteEventResult :=
  if fetch_ok then
    if total_sold variants > 0 then .rejected (total_sold variants)
    else .deleted
  else .deleted

/-! ## Webhook intake (order_created_webhook) -/

/-- The processed_webhook record set (models.py ProcessedWebhook),
reduced to the list of recorded webhook ids. -/
structure WebhookState where
  processed : List String
deriving DecidableEq, Repr

/-- A webhook route outcome: an HTTPException with status code and
detail, or the 200 acknowledgement with its message. -/
inductive WebhookResponse where
  | error (status_code : Nat) (detail : String)
  | received (message : String)
deriving DecidableEq, Repr

/-- `order_created_webhook` (webhooks.py lines 17–101): check the
configured secret, verify the HMAC signature, parse the JSON body, then
log the payload and acknowledge. The handler reads no webhook id header
and neither consults nor updates the ProcessedWebhook record set;
`webhook_id` is the delivery's id as it would appear in a
ProcessedWebhook row. -/
def order_created_webhook (webhook_id : String)
    (secret_configured signature_valid json_ok : Bool)
    (s : WebhookState) : WebhookResponse × WebhookState :=
  let _ := webhook_id
  if ¬ secret_configured then (.error 500 "Webhook secret not configured", s)
  else if ¬ signature_valid then (.error 401 "Invalid webhook signature", s)
  else if ¬ json_ok then (.error 400 "Invalid JSON payload", s)
  else (.received "Webhook received and logged successfully", s)

/-! ## Paged fetch loops (get_events / get_popular_events) -/

/-- The fetch-all-pages loop shared by `get_events` (events.py lines
204–232) and `get_popular_events` (lines 74–88): `pages` is the
sequence of product batches the remote returns along the cursor chain
(each `list_products` call asks for at most 50); has_next_page is false
exactly on the last batch. After extending the accumulator the loop
stops when no further page exists, or when at least 500 items have been
accumulated (the safety limit), and otherwise follows the end_cursor to
the next page. -/
def fetch_pages_loop {α : Type} : List (List α) → List α → List α
  | [], acc => acc
  | p :: rest, acc =>
    let acc' := acc ++ p
    if rest.isEmpty then acc'
    else if 500 ≤ acc'.length then acc'
    else fetch_pages_loop rest acc'

/-- The loop started with an empty accumulator. -/
def fetch_all_pages {α : Type} (pages : List (List α)) : List α :=
  fetch_pages_loop pages []

/-! ## Metafield value parsing (_parse_variant_metafields) -/

/-- A parsed metafield value: json-typed values decode into `J`
(the model of Python's json.loads result), boolean into Bool,
number_integer into Int, everything else stays the raw string. -/
inductive MetaValue (J : Type) where
  | json (j : J)
  | str (s : String)
  | bool (b : Bool)
  | int (n : Int)
deriving DecidableEq, Repr

/-- One edge node of the metafields GraphQL connection: key, value and
type may each be missing or null. -/
structure MetafieldNode where
  key : Option String
  value : Option String
  type : Option String
deriving DecidableEq, Repr

/-- Python truthiness of the node's key (`if key and ...`): present and
nonempty. -/
def keyTruthy : Option String → Bool
  | none => false
  | some s => !(s == "")

/-- Python str.lower(), as used on boolean metafield text (ASCII
case folding suffices for the compared literal "true"). -/
def pyLower (s : String) : String :=
  String.mk (s.toList.map Char.toLower)

/-- The digits of a decimal numeral folded to a Nat; none when the
character list is empty or contains a non-digit. -/
def digitsToNat? (cs : List Char) : Option Nat :=
  if cs.isEmpty then none
  else if cs.all (fun c => c.isDigit) then
    some (cs.foldl (fun n c => n * 10 + (c.toNat - 48)) 0)
  else none

/-- Python int(text) on decimal text with an optional sign; `none`
models the ValueError raised on any other text. -/
def pyInt? (s : String) : Option Int :=
  match s.toList with
  | '-' :: rest => (digitsToNat? rest).map (fun n => -(n : Int))
  | '+' :: rest => (digitsToNat? rest).map (fun n => (n : Int))
  | cs => (digitsToNat? cs).map (fun n => (n : Int))

/-- The per-value dispatch of `_parse_variant_metafields` (variants.py
lines 748–783): json.loads is modelled by the decoder `jd` with
JSONDecodeError as `none` (caught: the raw string is kept); Python
int() is modelled by pyInt? and raises ValueError — aborting the
parse with the offending text — when the text is not an integer
numeral. -/
def parse_metafield_value {J : Type} (jd : String → Option J)
    (field_type : Option String) (v : String) : Except String (MetaValue J) :=
  if field_type = some "json" then
    match jd v with
    | some j => .ok (.json j)
    | none => .ok (.str v)
  else if field_type = some "boolean" then
    .ok (.bool (pyLower v == "true"))
  else if field_type = some "number_integer" then
    match pyInt? v with
    | some n => .ok (.int n)
    | none => .error v
  else .ok (.str v)

/-- Python dict assignment m[k] = x: overwrite in place when the key
exists, else append. -/
def dictInsert {V : Type} : List (String × V) → String → V → List (String × V)
  | [], k, x => [(k, x)]
  | (k', x') :: t, k, x =>
    if k' = k then (k, x) :: t else (k', x') :: dictInsert t k x

/-- The edge loop of `_parse_variant_metafields`: nodes whose key is
falsy or whose value is null are skipped; the rest are dispatched on
the type tag; an int() ValueError propagates out of the parse. -/
def parse_variant_metafields {J : Type} (jd : String → Option J) :
    List MetafieldNode → List (String × MetaValue J) →
      Except String (List (String × MetaValue J))
  | [], m => .ok m
  | node :: rest, m =>
    match node.key, node.value with
    | some k, some v =>
      if keyTruthy (some k) then
        match parse_metafield_value jd node.type v with
        | .ok mv => parse_variant_metafields jd rest (dictInsert m k mv)
        | .error e => .error e
      else parse_variant_metafields jd rest m
    | _, _ => parse_variant_metafields jd rest m

/-! ## Event listing sort and pagination (get_events) -/

/-- An event as seen by the sort/paginate tail of `get_events`
(events.py lines 234–249): only the fields its sort key reads. -/
structure EventSummary where
  shopify_product_id : String
  is_featured : Bool
  start_datetime : Option String
deriving DecidableEq, Repr

/-- First component of the Python sort key `not e.get("is_featured",
False)`: False (featured) sorts before True. -/
def eventFeaturedRank (e : EventSummary) : Nat :=
  if e.is_featured then 0 else 1

/-- Second component of the sort key: `e.get("start_datetime") or ""`,
a missing or empty date becomes the empty string. -/
def eventDateKey (e : EventSummary) : String :=
  e.start_datetime.getD ""

/-- The ascending lexicographic comparison on the Python sort key
(not is_featured, start_datetime or ""). -/
def eventLe (a b : EventSummary) : Bool :=
  decide (eventFeaturedRank a < eventFeaturedRank b) ||
    (decide (eventFeaturedRank a = eventFeaturedRank b) &&
      decide (eventDateKey a ≤ eventDateKey b))

/-- `all_events.sort(key=lambda e: (not is_featured, start or ""))`:
Python's stable ascending sort, embedded as a stable merge sort. -/
def sort_events (l : List EventSummary) : List EventSummary :=
  l.mergeSort eventLe

/-- The pagination tail of `get_events`: total pages, page clamping and
the slice. Returns (page slice, clamped page, total_pages). -/
def get_events_page (all_events : List EventSummary) (page limit : Nat) :
    List EventSummary × Nat × Nat :=
  let sorted := sort_events all_events
  let total_count := sorted.length
  let total_pages := max 1 ((total_count + limit - 1) / limit)
  let page' := if page > total_pages ∧ total_count > 0 then total_pages else page
  let offset := (page' - 1) * limit
  ((sorted.drop offset).take limit, page', total_pages)

/-! ## Theorems -/

/-- C1: every variant folded by the ticket-list operation derives
capacity, sold, status and revenue exactly by the spec formulas:
capacity is the declared-capacity metafield when positive, else the live
available quantity; sold is max(0, capacity − available); status is
"hidden" when invisible, else "sold_out" when available = 0, else
"active"; revenue is sold · price. -/
theorem list_variants_reconciles_as_spec :
    ∀ vs : List RawVariant, list_variants vs = vs.map foldVariant ∧
    ∀ v : RawVariant,
      ((foldVariant v).capacity, (foldVariant v).sold,
        (foldVariant v).status, (foldVariant v).revenue) =
      reconcileSpec (v.mfInventoryQuantity.getD 0) v.inventoryQuantity
        (v.mfIsVisible.getD true) v.price := by
  intro vs
  refine ⟨rfl, ?_⟩
  intro v
  simp only [foldVariant, reconcileSpec]
  rcases h : v.mfIsVisible.getD true with _ | _ <;> simp [h]

/-- C2 counterexample: with declared-capacity field 0 and live available
−1 (Shopify reports negative inventory on overselling), the fold yields
capacity = −1 and sold = 0, so `capacity ≥ sold` fails; the claimed
invariant does not hold for every pair of integer inputs. -/
theorem reconcile_invariant_counterexample :
    ¬ ((foldVariant ⟨"1", "t", 5, -1, some 0, some true, none⟩).sold ≤
       (foldVariant ⟨"1", "t", 5, -1, some 0, some true, none⟩).capacity) := by
  decide

/-- C2 amended: whenever the live available quantity is nonnegative, the
reconciliation satisfies sold ≥ 0, capacity ≥ sold, and
revenue = sold · price exactly (sold ≥ 0 and the revenue equation in
fact hold for all integer inputs; only capacity ≥ sold needs
0 ≤ available). -/
theorem reconcile_invariant_of_nonneg_available :
    ∀ v : RawVariant, 0 ≤ v.inventoryQuantity →
      0 ≤ (foldVariant v).sold ∧
      (foldVariant v).sold ≤ (foldVariant v).capacity ∧
      (foldVariant v).revenue = ((foldVariant v).sold : Rat) * (foldVariant v).price := by
  intro v hv
  simp only [foldVariant]
  refine ⟨le_max_left _ _, ?_, trivial⟩
  rcases le_or_lt (v.mfInventoryQuantity.getD 0) 0 with h | h
  · rw [if_neg (by omega)]
    omega
  · rw [if_pos (by omega)]
    omega

/-- C2 witness: the amended invariant evaluated at a concrete variant
(declared capacity 10, available 3, price 5). -/
theorem reconcile_invariant_of_nonneg_available_witness :
    0 ≤ (foldVariant ⟨"1", "t", 5, 3, some 10, some true, none⟩).sold ∧
    (foldVariant ⟨"1", "t", 5, 3, some 10, some true, none⟩).sold ≤
      (foldVariant ⟨"1", "t", 5, 3, some 10, some true, none⟩).capacity ∧
    (foldVariant ⟨"1", "t", 5, 3, some 10, some true, none⟩).revenue =
      ((foldVariant ⟨"1", "t", 5, 3, some 10, some true, none⟩).sold : Rat) *
        (foldVariant ⟨"1", "t", 5, 3, some 10, some true, none⟩).price :=
  reconcile_invariant_of_nonneg_available ⟨"1", "t", 5, 3, some 10, some true, none⟩
    (by decide)

/-- C3 counterexample: the pair (active, active) is not in the allowed
set {draft→active, active→archived, archived→active}, yet the
status-update operation permits it (the code only rejects the three
explicitly forbidden pairs), so "permits iff in the allowed set" is
false. -/
theorem update_event_status_counterexample :
    update_event_status "active" "active" [] = UpdateEventResult.updated ∧
    ¬ ((("active", "active") = (("draft", "active") : String × String)) ∨
       (("active", "active") = (("active", "archived") : String × String)) ∨
       (("active", "active") = (("archived", "active") : String × String))) := by
  constructor
  · rfl
  · decide

/-- C3 amended: over the nine (from, to) pairs, the transition is
REJECTED iff the pair is one of the three forbidden pairs
{active→draft, archived→draft, draft→archived} — each rejected with the
detail naming the required action — or it moves into active from a
non-active status without satisfying the ticket precondition
(≥ 1 ticket exists and ≥ 1 ticket has available > 0); identity
transitions and the three allowed pairs are otherwise permitted. -/
theorem update_event_status_table :
    ∀ (cur new : EventStatus) (vs : List VariantData),
      (update_event_status cur.toStr new.toStr vs = UpdateEventResult.updated ↔
        ((cur, new) ∉ ([(.active, .draft), (.archived, .draft), (.draft, .archived)] :
            List (EventStatus × EventStatus)) ∧
         (¬ (new = .active ∧ cur ≠ .active) ∨
           (vs ≠ [] ∧ vs.any (fun v => v.available > 0) = true)))) ∧
      (update_event_status cur.toStr new.toStr vs =
          UpdateEventResult.rejected "Cannot unpublish active event. Use archive instead." ↔
        cur = .active ∧ new = .draft) ∧
      (update_event_status cur.toStr new.toStr vs =
          UpdateEventResult.rejected
            "Cannot change archived event to draft. Use publish endpoint to make it active." ↔
        cur = .archived ∧ new = .draft) ∧
      (update_event_status cur.toStr new.toStr vs =
          UpdateEventResult.rejected "Cannot archive draft event. Publish it first." ↔
        cur = .draft ∧ new = .archived) := by
  intro cur new vs
  cases cur <;> cases new <;>
    simp only [update_event_status, forbidden_transition_detail, EventStatus.toStr] <;>
    rcases vs with _ | ⟨v, t⟩ <;>
    simp_all [List.any_cons] <;>
    split_ifs with h <;>
    simp_all
  all_goals
    intro hle
    rcases h with h | h
    · omega
    · exact h

/-- C4: once a ticket has sold > 0, the update operation rejects any
change to a locked field (ticket_name, ticket_type, description,
features, compare_at_price, max_per_order) with an error carrying the
current sold count; rejects setting inventory_quantity below the sold
count; and accepts a payload changing only price and is_visible. -/
theorem update_ticket_locking :
    ∀ (sold_count : Int) (u : TicketUpdate), 0 < sold_count →
      (u.hasLockedField = true →
        ∃ d, update_ticket sold_count u = UpdateTicketResult.rejectedLocked d sold_count) ∧
      (∀ n : Int, u.hasLockedField = false → u.inventory_quantity = some n →
        n < sold_count →
        update_ticket sold_count u = UpdateTicketResult.rejectedInventory sold_count n) ∧
      (∀ (p : Option Rat) (vis : Option Bool),
        update_ticket sold_count ⟨none, none, none, none, vis, p, none, none, none⟩ =
          UpdateTicketResult.updated ⟨none, none, none, none, vis, p, none, none, none⟩) := by
  intro sold_count u hs
  refine ⟨?_, ?_, ?_⟩
  · intro hlock
    rcases u with ⟨tn, tt, de, fe, vi, pr, cap, inv, mpo⟩
    simp only [TicketUpdate.hasLockedField, Bool.or_eq_true, Option.isSome] at hlock
    cases tn <;> cases tt <;> cases de <;> cases fe <;> cases cap <;> cases mpo <;>
      simp_all [update_ticket, hs]
  · intro n hlock hinv hlt
    rcases u with ⟨tn, tt, de, fe, vi, pr, cap, inv, mpo⟩
    simp only [TicketUpdate.hasLockedField, Bool.or_eq_false_iff, Option.isSome] at hlock
    cases tn <;> cases tt <;> cases de <;> cases fe <;> cases cap <;> cases mpo <;>
      simp_all [update_ticket, hs, hlt]
  · intro p vis
    simp [update_ticket, hs]

/-- C4 witness: at sold count 4, a ticket_type change is rejected with
sold count 4, lowering inventory to 2 is rejected, and a price +
visibility change is accepted. -/
theorem update_ticket_locking_witness :
    ((⟨none, some "vip", none, none, none, none, none, none, none⟩ :
        TicketUpdate).hasLockedField = true →
      ∃ d, update_ticket 4 ⟨none, some "vip", none, none, none, none, none, none, none⟩ =
        UpdateTicketResult.rejectedLocked d 4) ∧
    (∀ n : Int,
      (⟨none, some "vip", none, none, none, none, none, none, none⟩ :
          TicketUpdate).hasLockedField = false →
      (⟨none, some "vip", none, none, none, none, none, none, none⟩ :
          TicketUpdate).inventory_quantity = some n →
      n < 4 →
      update_ticket 4 ⟨none, some "vip", none, none, none, none, none, none, none⟩ =
        UpdateTicketResult.rejectedInventory 4 n) ∧
    (∀ (p : Option Rat) (vis : Option Bool),
      update_ticket 4 ⟨none, none, none, none, vis, p, none, none, none⟩ =
        UpdateTicketResult.updated ⟨none, none, none, none, vis, p, none, none, none⟩) :=
  update_ticket_locking 4 ⟨none, some "vip", none, none, none, none, none, none, none⟩
    (by decide)

/-- Helper: invalidating events:* then tickets:* clears every key of
the four application key families. -/
theorem invalidate_event_caches_all_eq_nil (s : CacheState) :
    invalidate_event_caches_all s = [] := by
  induction s with
  | nil => rfl
  | cons k t ih =>
    cases k <;>
      simpa [invalidate_event_caches_all, cache_delete, matchesEventsStar,
        matchesTicketsStar] using ih

/-- C5 counterexample: create_ticket returns success without
invalidating anything — a populated listing key (and every other key)
survives the mutation, so "every mutating operation invalidates the
full projection, ticket list and all listing/ranking keys before
success" is false. -/
theorem cache_invalidation_counterexample :
    create_ticket_cache_effect "1"
        [CacheKey.eventList "page=1", CacheKey.eventFull "1",
          CacheKey.eventTickets "1", CacheKey.eventsPopular 10] =
      [CacheKey.eventList "page=1", CacheKey.eventFull "1",
        CacheKey.eventTickets "1", CacheKey.eventsPopular 10] ∧
    CacheKey.eventList "page=1" ∈
      create_ticket_cache_effect "1"
        [CacheKey.eventList "page=1", CacheKey.eventFull "1",
          CacheKey.eventTickets "1", CacheKey.eventsPopular 10] := by
  exact ⟨rfl, by decide⟩

/-- C5 amended: the event-level mutations (event create, partial
update, status change/publish, feature toggle, event delete) invalidate
every key of all four families before success; ticket update
invalidates exactly that event's full-projection and ticket-list keys
(listing and popular-ranking keys survive); ticket create and ticket
delete invalidate nothing. -/
theorem cache_invalidation_per_route :
    ∀ (s : CacheState) (pid : String),
      event_mutation_cache_effect s = [] ∧
      update_ticket_cache_effect pid s =
        s.filter (fun k =>
          ¬ (k = CacheKey.eventFull pid ∨ k = CacheKey.eventTickets pid)) ∧
      create_ticket_cache_effect pid s = s ∧
      delete_ticket_cache_effect pid s = s := by
  intro s pid
  refine ⟨invalidate_event_caches_all_eq_nil s, ?_, rfl, rfl⟩
  induction s with
  | nil => rfl
  | cons k t ih =>
    simp only [update_ticket_cache_effect, invalidate_ticket_caches_event,
      invalidate_event_caches_id, cache_delete] at ih ⊢
    by_cases h1 : k = CacheKey.eventFull pid <;>
      by_cases h2 : k = CacheKey.eventTickets pid <;>
      simp_all

/-- C6 counterexample: for an event with 3 sold tickets, when the
ticket listing raises, delete_event skips the sold-count guard and
issues the deletion — so "deletion proceeds only when the summed sold
count is 0" is false. -/
theorem delete_event_counterexample :
    0 < total_sold [foldVariant ⟨"1", "t", 50, 97, some 100, some true, none⟩] ∧
    delete_event [foldVariant ⟨"1", "t", 50, 97, some 100, some true, none⟩] false =
      DeleteEventResult.deleted := by
  exact ⟨by decide, rfl⟩

/-- C6 amended: when the ticket listing succeeds, delete_event refuses
(with the summed sold count, advising archival) iff the summed sold
count is positive and deletes iff it is not; when the ticket listing
fails, the deletion proceeds without the guard. -/
theorem delete_event_guard :
    ∀ vs : List VariantData,
      (delete_event vs true = DeleteEventResult.rejected (total_sold vs) ↔
        0 < total_sold vs) ∧
      (delete_event vs true = DeleteEventResult.deleted ↔ total_sold vs ≤ 0) ∧
      delete_event vs false = DeleteEventResult.deleted := by
  intro vs
  refine ⟨?_, ?_, rfl⟩ <;>
    by_cases h : total_sold vs > 0 <;>
    simp [delete_event, h] <;>
    omega

/-- C7 counterexample: a first successful delivery of webhook id w1
records nothing in the Processed-Webhook set, and a delivery whose id
is already recorded still runs to the plain success acknowledgement
with unchanged state — no delivery is ever detected against the record
set, so the claimed idempotency mechanism is absent. -/
theorem webhook_idempotency_counterexample :
    ¬ ("w1" ∈ (order_created_webhook "w1" true true true ⟨[]⟩).2.processed) ∧
    order_created_webhook "w1" true true true ⟨["w1"]⟩ =
      (WebhookResponse.received "Webhook received and logged successfully", ⟨["w1"]⟩) := by
  exact ⟨by decide, rfl⟩

/-- C7 amended: the order-created handler applies no side effects and
neither reads nor writes the Processed-Webhook record set: its
resulting state always equals its input state, its response is
independent of the webhook id and of the record set, and a delivery
passing secret/signature/JSON checks — first or repeated — returns the
same success acknowledgement. -/
theorem webhook_handler_stateless :
    ∀ (id1 id2 : String) (c v j : Bool) (s s' : WebhookState),
      (order_created_webhook id1 c v j s).2 = s ∧
      (order_created_webhook id1 c v j s).1 = (order_created_webhook id2 c v j s').1 ∧
      (order_created_webhook id1 true true true s).1 =
        WebhookResponse.received "Webhook received and logged successfully" := by
  intro id1 id2 c v j s s'
  cases c <;> cases v <;> cases j <;> simp [order_created_webhook]

/-- Helper: the fetch loop consumes an initial run of the cursor-chain
pages, in order. -/
theorem fetch_pages_loop_take_join {α : Type} :
    ∀ (pages : List (List α)) (acc : List α),
      ∃ k, fetch_pages_loop pages acc = acc ++ (pages.take k).flatten := by
  intro pages
  induction pages with
  | nil => exact fun acc => ⟨0, by simp [fetch_pages_loop]⟩
  | cons p rest ih =>
    intro acc
    rw [show fetch_pages_loop (p :: rest) acc =
      (if rest.isEmpty then acc ++ p
        else if 500 ≤ (acc ++ p).length then acc ++ p
        else fetch_pages_loop rest (acc ++ p)) from rfl]
    by_cases h1 : rest.isEmpty
    · rw [if_pos h1]
      exact ⟨1, by simp⟩
    · rw [if_neg h1]
      by_cases h2 : 500 ≤ (acc ++ p).length
      · rw [if_pos h2]
        exact ⟨1, by simp⟩
      · rw [if_neg h2]
        obtain ⟨k, hk⟩ := ih (acc ++ p)
        exact ⟨k + 1, by simp [hk]⟩

/-- Helper: with batches of at most 50 items and an accumulator still
below the 500 cap, the loop accumulates at most 549 items. -/
theorem fetch_pages_loop_length_le {α : Type} :
    ∀ (pages : List (List α)) (acc : List α),
      (∀ p ∈ pages, p.length ≤ 50) → acc.length < 500 →
      (fetch_pages_loop pages acc).length ≤ 549 := by
  intro pages
  induction pages with
  | nil =>
    intro acc _ hacc
    simp only [fetch_pages_loop]
    omega
  | cons p rest ih =>
    intro acc hp hacc
    have hp50 : p.length ≤ 50 := hp p (by simp)
    simp only [fetch_pages_loop]
    by_cases h1 : rest.isEmpty
    · simp only [h1, if_true]
      simp only [List.length_append]
      omega
    · simp only [h1, if_false, Bool.false_eq_true]
      by_cases h2 : 500 ≤ (acc ++ p).length
      · simp only [h2, if_true]
        simp only [List.length_append] at h2 ⊢
        omega
      · simp only [h2, if_false]
        refine ih (acc ++ p) (fun q hq => hp q (by simp [hq])) ?_
        simp only [List.length_append] at h2 ⊢
        omega

/-- C8 counterexample: twelve cursor pages of 49 items each make the
loop accumulate 539 items — more than the claimed fixed maximum of 500
(the cap is checked only after a whole batch is appended). -/
theorem fetch_all_pages_counterexample :
    (fetch_all_pages (List.replicate 12 (List.replicate 49 (0 : Nat)))).length = 539 ∧
    500 < 539 := by
  exact ⟨by decide, by decide⟩

/-- C8 amended: the fetch-all-pages loop terminates on every finite
cursor chain, proceeds page by page in cursor order (its result is the
concatenation of an initial run of the pages), and — since the 500-item
safety cap is checked only after appending a whole batch of at most
50 — accumulates at most 549 items before stopping. -/
theorem fetch_loop_terminates_bounded :
    ∀ (α : Type) (pages : List (List α)),
      (∀ p ∈ pages, p.length ≤ 50) →
      (fetch_all_pages pages).length ≤ 549 ∧
      ∃ k, fetch_all_pages pages = (pages.take k).flatten := by
  intro α pages hp
  constructor
  · exact fetch_pages_loop_length_le pages [] hp (by simp)
  · simpa using fetch_pages_loop_take_join pages []

/-- C8 witness: the bound and page-by-page shape at a concrete
two-page chain. -/
theorem fetch_loop_terminates_bounded_witness :
    (fetch_all_pages ([[1, 2], [3]] : List (List Nat))).length ≤ 549 ∧
    ∃ k, fetch_all_pages ([[1, 2], [3]] : List (List Nat)) =
      (([[1, 2], [3]] : List (List Nat)).take k).flatten :=
  fetch_loop_terminates_bounded Nat [[1, 2], [3]] (by decide)

/-- C9 counterexample: a number_integer-typed metafield whose text is
not an integer numeral makes int(value) raise, so the parser is not a
total function of the metafields response: on this input it aborts
instead of producing a dictionary. -/
theorem parse_metafields_counterexample :
    @parse_variant_metafields Unit (fun _ => none)
        [⟨some "k", some "abc", some "number_integer"⟩] [] = Except.error "abc" ∧
    ∀ m, @parse_variant_metafields Unit (fun _ => none)
        [⟨some "k", some "abc", some "number_integer"⟩] [] ≠ Except.ok m := by
  refine ⟨rfl, ?_⟩
  intro m h
  rw [show @parse_variant_metafields Unit (fun _ => none)
      [⟨some "k", some "abc", some "number_integer"⟩] [] = Except.error "abc" from rfl] at h
  exact Except.noConfusion h

/-- C9 amended: the metafield value dispatch behaves as claimed on
every branch except totality — a json-typed value that fails to decode
is kept as the raw string; a boolean-typed value parses to true iff its
lowercased text equals "true"; a number_integer-typed value is
converted by integer parsing WHEN the text is an integer numeral and
otherwise raises (aborting the parse); any other type tag yields the
raw string; and a node with a falsy (missing or empty) key or a null
value is omitted. -/
theorem parse_metafields_dispatch :
    ∀ (J : Type) (jd : String → Option J) (v : String) (t : Option String)
      (node : MetafieldNode) (rest : List MetafieldNode)
      (m : List (String × MetaValue J)),
      (∀ j, jd v = some j →
        parse_metafield_value jd (some "json") v = Except.ok (MetaValue.json j)) ∧
      (jd v = none →
        parse_metafield_value jd (some "json") v = Except.ok (MetaValue.str v)) ∧
      (parse_metafield_value jd (some "boolean") v =
        Except.ok (MetaValue.bool (pyLower v == "true"))) ∧
      (∀ n, pyInt? v = some n →
        parse_metafield_value jd (some "number_integer") v = Except.ok (MetaValue.int n)) ∧
      (pyInt? v = none →
        parse_metafield_value jd (some "number_integer") v = Except.error v) ∧
      (t ≠ some "json" → t ≠ some "boolean" → t ≠ some "number_integer" →
        parse_metafield_value jd t v = Except.ok (MetaValue.str v)) ∧
      ((keyTruthy node.key = false ∨ node.value = none) →
        parse_variant_metafields jd (node :: rest) m =
          parse_variant_metafields jd rest m) := by
  intro J jd v t node rest m
  refine ⟨?_, ?_, ?_, ?_, ?_, ?_, ?_⟩
  · intro j hj
    simp [parse_metafield_value, hj]
  · intro hj
    simp [parse_metafield_value, hj]
  · rfl
  · intro n hn
    simp [parse_metafield_value, hn]
  · intro hn
    simp [parse_metafield_value, hn]
  · intro h1 h2 h3
    simp [parse_metafield_value, h1, h2, h3]
  · intro h
    rcases node with ⟨k, val, ty⟩
    rcases k with _ | k <;> rcases val with _ | val <;>
      simp_all [parse_variant_metafields, keyTruthy]

/-- C9 witness: the boolean branch evaluated at the concrete text
"TRUE" via the dispatch theorem. -/
theorem parse_metafields_dispatch_witness :
    @parse_metafield_value Unit (fun _ => none) (some "boolean") "TRUE" =
      Except.ok (MetaValue.bool true) :=
  (parse_metafields_dispatch Unit (fun _ => none) "TRUE" (some "x")
    ⟨none, none, none⟩ [] []).2.2.1

/-- Helper: the Python sort-key comparison is transitive. -/
theorem eventLe_trans : ∀ (a b c : EventSummary),
    eventLe a b → eventLe b c → eventLe a c := by
  intro a b c hab hbc
  simp only [eventLe, Bool.or_eq_true, Bool.and_eq_true, decide_eq_true_eq] at *
  rcases hab with h | ⟨h1, h2⟩ <;> rcases hbc with g | ⟨g1, g2⟩
  · exact Or.inl (by omega)
  · exact Or.inl (by omega)
  · exact Or.inl (by omega)
  · exact Or.inr ⟨by omega, le_trans h2 g2⟩

/-- Helper: the Python sort-key comparison is total. -/
theorem eventLe_total : ∀ (a b : EventSummary), eventLe a b || eventLe b a := by
  intro a b
  simp only [eventLe, Bool.or_eq_true, Bool.and_eq_true, decide_eq_true_eq]
  rcases Nat.lt_trichotomy (eventFeaturedRank a) (eventFeaturedRank b) with h | h | h
  · exact Or.inl (Or.inl h)
  · rcases le_total (eventDateKey a) (eventDateKey b) with hd | hd
    · exact Or.inl (Or.inr ⟨h, hd⟩)
    · exact Or.inr (Or.inr ⟨h.symm, hd⟩)
  · exact Or.inr (Or.inl h)

/-- C10: the event listing sorts all events with every featured event
before every non-featured one and within each group ascending by
start_datetime (a missing date sorts as the empty string, first);
the returned page is the contiguous drop/take slice of this order at
the (possibly clamped) page number; and a page past the end is clamped
so that a non-empty catalog always yields a non-empty page. -/
theorem get_events_page_sorted_slice :
    ∀ (events : List EventSummary) (page limit : Nat), 1 ≤ page → 1 ≤ limit →
      (sort_events events).Pairwise (fun a b =>
        (b.is_featured = true → a.is_featured = true) ∧
        (a.is_featured = b.is_featured → eventDateKey a ≤ eventDateKey b)) ∧
      (sort_events events).Perm events ∧
      (get_events_page events page limit).1 =
        ((sort_events events).drop
          (((get_events_page events page limit).2.1 - 1) * limit)).take limit ∧
      (0 < events.length → (get_events_page events page limit).1 ≠ []) := by
  intro events page limit hpage hlim
  refine ⟨?_, ?_, rfl, ?_⟩
  · have hs := List.sorted_mergeSort eventLe_trans eventLe_total events
    refine hs.imp ?_
    intro a b h
    simp only [eventLe, Bool.or_eq_true, Bool.and_eq_true, decide_eq_true_eq] at h
    constructor
    · intro hb
      rcases h with h | ⟨h1, h2⟩
      · simp [eventFeaturedRank, hb] at h
      · cases haf : a.is_featured
        · exfalso
          simp [eventFeaturedRank, hb, haf] at h1
        · rfl
    · intro hf
      rcases h with h | ⟨h1, h2⟩
      · cases hbf : b.is_featured <;> simp [eventFeaturedRank, hf, hbf] at h
      · exact h2
  · exact List.mergeSort_perm events eventLe
  · intro hlen
    have hslen : (sort_events events).length = events.length := by
      simp [sort_events]
    rw [show (get_events_page events page limit).1 =
        ((sort_events events).drop
          (((if page > max 1 (((sort_events events).length + limit - 1) / limit) ∧
                (sort_events events).length > 0
              then max 1 (((sort_events events).length + limit - 1) / limit)
              else page) - 1) * limit)).take limit from rfl]
    set n := (sort_events events).length with hn
    set q := (n + limit - 1) / limit with hq
    have hnpos : 0 < n := by rw [hslen]; exact hlen
    have hq1 : 1 ≤ q := by
      rw [hq, Nat.le_div_iff_mul_le (by omega : 0 < limit)]
      omega
    have hq2 : q * limit ≤ n + limit - 1 := by
      rw [hq]
      exact Nat.div_mul_le_self _ _
    have hmax : max 1 q = q := by omega
    rw [hmax]
    have hple : (if page > q ∧ n > 0 then q else page) ≤ q := by
      split
      · omega
      · omega
    have hofflt : ((if page > q ∧ n > 0 then q else page) - 1) * limit ≤
        q * limit - limit := by
      calc ((if page > q ∧ n > 0 then q else page) - 1) * limit
          ≤ (q - 1) * limit := Nat.mul_le_mul_right _ (by omega)
        _ = q * limit - limit := by rw [Nat.sub_mul, one_mul]
    refine (List.length_pos).mp ?_
    rw [List.length_take, List.length_drop]
    generalize hOF : ((if page > q ∧ n > 0 then q else page) - 1) * limit = OF at hofflt
    generalize hA : q * limit = A at hofflt hq2
    omega

/-- C10 witness: the listing theorem applied to a concrete two-event
catalog at page 1, limit 1: the sort is a permutation of the catalog
and the returned page is non-empty. -/
theorem get_events_page_sorted_slice_witness :
    (sort_events [⟨"a", false, some "2025-06-01"⟩, ⟨"b", true, none⟩]).Perm
      [⟨"a", false, some "2025-06-01"⟩, ⟨"b", true, none⟩] ∧
    (get_events_page [⟨"a", false, some "2025-06-01"⟩, ⟨"b", true, none⟩] 1 1).1 ≠ [] :=
  ⟨(get_events_page_sorted_slice
      [⟨"a", false, some "2025-06-01"⟩, ⟨"b", true, none⟩] 1 1
      (by decide) (by decide)).2.1,
   (get_events_page_sorted_slice
      [⟨"a", false, some "2025-06-01"⟩, ⟨"b", true, none⟩] 1 1
      (by decide) (by decide)).2.2.2 (by decide)⟩
